import Mathlib

/-!
Verification of the `damas_maps` CVRPTW routing engine.

The development shallowly embeds the pure data-model construction of
`solve_vrp.py` (`build_data_model`, the transit/demand callbacks, the
route extractor `get_routes`) and the HTTP-layer vehicle parser of
`app.py` (`_parse_vehicle`).  The external constraint solver is modelled
by the predicate `Feasible`, which states exactly the constraints that
`solve_vrp` registers with the routing model: chain structure from the
index manager, the capacity dimension (zero slack, start cumul fixed at
zero, cumuls bounded by the vehicle capacity), the time dimension
(per-node windows clamped to the 24-hour horizon, transit plus bounded
slack between consecutive cumuls), the per-vehicle duration constraint,
and visit completeness.  A returned solution is any assignment
satisfying those registered constraints.
-/

namespace DamasMaps

/-- Python's `round` (banker's rounding, half to even) applied to the
fraction `n / d` with `d > 0`: `f` is the floor of the quotient and `t`
compares twice the remainder against the denominator. -/
def pyRoundFrac (n d : ℤ) : ℤ :=
  let f : ℤ := Int.ediv n d
  let t : ℤ := 2 * (n - f * d)
  if t < d then f
  else if d < t then f + 1
  else if f % 2 = 0 then f else f + 1

/-- `Stop` dataclass from `solve_vrp.py` (lines 22-31).  Coordinates are
display-only and modelled as rationals; they are never computed with. -/
structure Stop where
  name : String
  lat : ℚ
  lon : ℚ
  demand : ℤ := 1
  tw : Option (ℤ × ℤ) := none
  service_min : ℤ := 5
deriving DecidableEq, Repr

/-- `Vehicle` dataclass from `solve_vrp.py` (lines 33-40).  Location
indices are modelled as naturals; the HTTP layer rejects negative
indices before the solver runs. -/
structure Vehicle where
  name : String
  capacity : ℤ
  start_index : ℕ
  end_index : Option ℕ := none
  max_route_min : Option ℤ := some (8 * 60)
  speed_factor : ℚ := 1
deriving DecidableEq, Repr

/-- A raw JSON field as seen by `_parse_vehicle` in `app.py`: absent
(covers `None`, `""`, `"null"` sentinels), present but unparseable by
`int`/`float`, or a parsed value. -/
inductive Field (α : Type) where
  | absent : Field α
  | bad : Field α
  | val : α → Field α
deriving DecidableEq, Repr

/-- Raw vehicle payload for `_parse_vehicle` (`app.py` lines 106-154). -/
structure RawVehicle where
  name : Option String := none
  capacity : Field ℤ := .absent
  start_index : Field ℕ := .absent
  end_index : Field ℕ := .absent
  max_route_min : Field ℤ := .absent
  speed_factor : Field ℚ := .absent
deriving DecidableEq, Repr

/-- Parse a field with a default used when the field is absent;
an unparseable field raises `ValueError` (modelled as `.error`). -/
def fieldOr {α : Type} (f : Field α) (dflt : α) (msg : String) : Except String α :=
  match f with
  | .bad => .error msg
  | .absent => .ok dflt
  | .val a => .ok a

/-- Parse an optional field: absent maps to `none`. -/
def fieldOpt {α : Type} (f : Field α) (msg : String) : Except String (Option α) :=
  match f with
  | .bad => .error msg
  | .absent => .ok none
  | .val a => .ok (some a)

/-- `_parse_vehicle` from `app.py` (lines 106-154): note the silent
clamp `capacity = max(capacity, 1)` applied after parsing. -/
def _parse_vehicle (raw : RawVehicle) (idx : ℕ) (default_capacity : ℤ) :
    Except String Vehicle := do
  let name :=
    match raw.name with
    | some s => if s.trim = "" then "Vehicle " ++ toString (idx + 1) else s.trim
    | none => "Vehicle " ++ toString (idx + 1)
  let capacity0 ← fieldOr raw.capacity default_capacity
    ("Vehicle " ++ toString (idx + 1) ++ " has invalid capacity")
  let capacity := max capacity0 1
  let start_index ← fieldOr raw.start_index 0
    ("Vehicle " ++ toString (idx + 1) ++ " has invalid start index")
  let end_index ← fieldOpt raw.end_index
    ("Vehicle " ++ toString (idx + 1) ++ " has invalid end index")
  let max_route_min ← fieldOpt raw.max_route_min
    ("Vehicle " ++ toString (idx + 1) ++ " has invalid max route minutes")
  let speed_factor ← fieldOr raw.speed_factor 1
    ("Vehicle " ++ toString (idx + 1) ++ " has invalid speed factor")
  return { name := name, capacity := capacity, start_index := start_index,
           end_index := end_index, max_route_min := max_route_min,
           speed_factor := speed_factor }

/-- Seconds-to-minutes conversion of one OSRM duration entry
(`solve_vrp.py` line 154): `int(round((c if c is not None else 0)/60.0))`,
i.e. the half-even rounding of the exact rational `c / 60`, whose
numerator and denominator are `c.num` and `60 * c.den`. -/
def minutesFromSeconds (c : Option ℚ) : ℤ :=
  let q := c.getD 0
  pyRoundFrac q.num (60 * (q.den : ℤ))

/-- The whole converted duration matrix (`solve_vrp.py` line 154). -/
def durationsMin (table : List (List (Option ℚ))) : List (List ℤ) :=
  table.map (fun row => row.map minutesFromSeconds)

/-- Default time window `(0, 24*60)` (`solve_vrp.py` line 162). -/
def defaultTw : ℤ × ℤ := (0, 24 * 60)

/-- Effective window of a stop: `s.tw if s.tw else default_tw`
(`solve_vrp.py` line 163); only `None` is falsy for an optional pair. -/
def stopTw (s : Stop) : ℤ × ℤ := s.tw.getD defaultTw

/-- Effective end index: `v.end_index if v.end_index is not None else
v.start_index` (`solve_vrp.py` line 167). -/
def vehicleEnd (v : Vehicle) : ℕ := v.end_index.getD v.start_index

/-- Effective per-vehicle duration limit: `v.max_route_min if
v.max_route_min else 24*60` (`solve_vrp.py` line 169).  Python
truthiness makes both `None` and `0` fall back to the full horizon. -/
def vehicleMaxRouteMin (v : Vehicle) : ℤ :=
  match v.max_route_min with
  | none => 24 * 60
  | some m => if m = 0 then 24 * 60 else m

/-- The dict returned by `build_data_model` (`solve_vrp.py` lines 171-183). -/
structure DataModel where
  duration_matrix_min : List (List ℤ)
  distance_matrix_m : List (List (Option ℚ))
  demands : List ℤ
  service_min : List ℤ
  time_windows : List (ℤ × ℤ)
  vehicle_capacities : List ℤ
  vehicle_starts : List ℕ
  vehicle_ends : List ℕ
  vehicle_max_route_min : List ℤ
  stops : List Stop
  vehicles : List Vehicle
deriving DecidableEq, Repr

/-- `build_data_model` (`solve_vrp.py` lines 148-183).  The OSRM matrix
query is an external input and is passed in as the raw seconds/meters
tables it returns. -/
def build_data_model (stops : List Stop) (vehicles : List Vehicle)
    (durTable distTable : List (List (Option ℚ))) : DataModel :=
  { duration_matrix_min := durationsMin durTable
    distance_matrix_m := distTable
    demands := stops.map (fun s => s.demand)
    service_min := stops.map (fun s => s.service_min)
    time_windows := stops.map stopTw
    vehicle_capacities := vehicles.map (fun v => v.capacity)
    vehicle_starts := vehicles.map (fun v => v.start_index)
    vehicle_ends := vehicles.map vehicleEnd
    vehicle_max_route_min := vehicles.map vehicleMaxRouteMin
    stops := stops
    vehicles := vehicles }

/-- Matrix entry lookup `m[i][j]`. -/
def durAt (m : List (List ℤ)) (i j : ℕ) : ℤ := (m.getD i []).getD j 0

/-- `time_callback` (`solve_vrp.py` lines 199-202): travel time plus the
service time of the node being LEFT (`from_node`). -/
def time_callback (dm : DataModel) (i j : ℕ) : ℤ :=
  durAt dm.duration_matrix_min i j + dm.service_min.getD i 0

/-- `demand_callback` (`solve_vrp.py` lines 210-212). -/
def demand_callback (dm : DataModel) (i : ℕ) : ℤ := dm.demands.getD i 0

/-- The 24-hour horizon used for the time dimension (`solve_vrp.py` line 225). -/
def horizon : ℤ := 24 * 60

/-- Effective window of a node as stored in the data model. -/
def nodeWindow (dm : DataModel) (node : ℕ) : ℤ × ℤ :=
  dm.time_windows.getD node defaultTw

/-- A candidate solver assignment: for each vehicle the chain of visited
nodes from its start to its end (the `NextVar` walk), and the values of
the Time dimension's cumul variables along that chain. -/
structure VSolution where
  chains : List (List ℕ)
  arrivals : List (List ℤ)
deriving DecidableEq, Repr

/-- Chain structure imposed by the `RoutingIndexManager`: a vehicle's
walk starts at its start node, ends at its end node, and has length at
least two. -/
def ChainOK (dm : DataModel) (v : ℕ) (chain : List ℕ) : Prop :=
  2 ≤ chain.length ∧
  chain.head? = some (dm.vehicle_starts.getD v 0) ∧
  chain.getLast? = some (dm.vehicle_ends.getD v 0)

/-- Sum of demands along a list of nodes. -/
def prefixDemand (dm : DataModel) (pre : List ℕ) : ℤ :=
  (pre.map (demand_callback dm)).sum

/-- The Capacity dimension registered at `solve_vrp.py` lines 214-221:
zero slack and `fix_start_cumul_to_zero=True` force the cumul at
position `k` to be the demand sum of the first `k` visited nodes, and
every cumul is bounded by `[0, capacity]`. -/
def CapacityOK (dm : DataModel) (v : ℕ) (chain : List ℕ) : Prop :=
  ∀ k, k < chain.length →
    0 ≤ prefixDemand dm (chain.take k) ∧
    prefixDemand dm (chain.take k) ≤ dm.vehicle_capacities.getD v 0

/-- The Time dimension registered at `solve_vrp.py` lines 223-249: each
cumul lies in the node's window intersected with `[0, horizon]`
(`SetRange` only shrinks the `AddDimension` domain), and consecutive
cumuls differ by the transit callback plus a slack in `[0, horizon]`. -/
def TimeOK (dm : DataModel) (chain : List ℕ) (arr : List ℤ) : Prop :=
  arr.length = chain.length ∧
  (∀ k, k < chain.length →
    max (nodeWindow dm (chain.getD k 0)).1 0 ≤ arr.getD k 0 ∧
    arr.getD k 0 ≤ min (nodeWindow dm (chain.getD k 0)).2 horizon) ∧
  (∀ k, k < chain.length - 1 →
    arr.getD k 0 + time_callback dm (chain.getD k 0) (chain.getD (k + 1) 0)
      ≤ arr.getD (k + 1) 0 ∧
    arr.getD (k + 1) 0
      ≤ arr.getD k 0 + time_callback dm (chain.getD k 0) (chain.getD (k + 1) 0)
        + horizon)

/-- The per-vehicle duration constraint registered at `solve_vrp.py`
lines 251-255: `CumulVar(end) <= CumulVar(start) + limit`. -/
def DurationOK (dm : DataModel) (v : ℕ) (arr : List ℤ) : Prop :=
  arr.getLastD 0 ≤ arr.headD 0 + dm.vehicle_max_route_min.getD v 0

/-- Total occurrence count of a node over all chains. -/
def countNode (chains : List (List ℕ)) (i : ℕ) : ℕ :=
  (chains.map (fun c => c.count i)).sum

/-- Visit completeness: with no disjunctions added, the routing model
requires every node that is not some vehicle's start or end anchor to be
visited exactly once. -/
def CompleteOK (dm : DataModel) (chains : List (List ℕ)) : Prop :=
  ∀ i, i < dm.stops.length →
    i ∉ dm.vehicle_starts → i ∉ dm.vehicle_ends →
    countNode chains i = 1

/-- A returned solution: an assignment satisfying every constraint that
`solve_vrp` registers with the routing model. -/
def Feasible (dm : DataModel) (sol : VSolution) : Prop :=
  sol.chains.length = dm.vehicle_starts.length ∧
  sol.arrivals.length = sol.chains.length ∧
  (∀ v, v < sol.chains.length →
    ChainOK dm v (sol.chains.getD v []) ∧
    CapacityOK dm v (sol.chains.getD v []) ∧
    TimeOK dm (sol.chains.getD v []) (sol.arrivals.getD v []) ∧
    DurationOK dm v (sol.arrivals.getD v [])) ∧
  CompleteOK dm sol.chains

instance (dm : DataModel) (v : ℕ) (chain : List ℕ) : Decidable (ChainOK dm v chain) := by
  unfold ChainOK; infer_instance

instance (dm : DataModel) (v : ℕ) (chain : List ℕ) : Decidable (CapacityOK dm v chain) := by
  unfold CapacityOK; infer_instance

instance (dm : DataModel) (chain : List ℕ) (arr : List ℤ) : Decidable (TimeOK dm chain arr) := by
  unfold TimeOK; infer_instance

instance (dm : DataModel) (v : ℕ) (arr : List ℤ) : Decidable (DurationOK dm v arr) := by
  unfold DurationOK; infer_instance

instance (dm : DataModel) (chains : List (List ℕ)) : Decidable (CompleteOK dm chains) := by
  unfold CompleteOK; infer_instance

instance (dm : DataModel) (sol : VSolution) : Decidable (Feasible dm sol) := by
  unfold Feasible; infer_instance

/-- Cost of one chain under the registered arc-cost evaluator
(`SetArcCostEvaluatorOfAllVehicles(transit_cb_idx)`, line 205). -/
def arcCosts (dm : DataModel) : List ℕ → ℤ
  | [] => 0
  | [_] => 0
  | a :: b :: rest => time_callback dm a b + arcCosts dm (b :: rest)

/-- Objective minimized by the solver: the registered arc cost summed
over all vehicles' chains. -/
def objectiveValue (dm : DataModel) (sol : VSolution) : ℤ :=
  (sol.chains.map (arcCosts dm)).sum

/-- Chain cost as the spec's Solution paragraph words it: arc cost is
travel time plus the service time of the DESTINATION node `j`. -/
def arcCostsDest (dm : DataModel) : List ℕ → ℤ
  | [] => 0
  | [_] => 0
  | a :: b :: rest =>
      (durAt dm.duration_matrix_min a b + dm.service_min.getD b 0)
        + arcCostsDest dm (b :: rest)

/-- Objective as the spec's Solution paragraph words it. -/
def objectiveDest (dm : DataModel) (sol : VSolution) : ℤ :=
  (sol.chains.map (arcCostsDest dm)).sum

/-- Pure travel time summed along a chain. -/
def routeDurSum (dm : DataModel) : List ℕ → ℤ
  | [] => 0
  | [_] => 0
  | a :: b :: rest => durAt dm.duration_matrix_min a b + routeDurSum dm (b :: rest)

/-- `get_routes` (`solve_vrp.py` lines 270-290): walk each vehicle's
chain pairing nodes with Time cumuls, skipping vehicles whose start is
immediately followed by their end (a two-element chain). -/
def get_routes (sol : VSolution) : List (ℕ × List (ℕ × ℤ)) :=
  (List.range sol.chains.length).filterMap (fun v =>
    if (sol.chains.getD v []).length = 2 then none
    else some (v, (sol.chains.getD v []).zip (sol.arrivals.getD v [])))

/-- Travel time scaled by the vehicle's speed factor, as the spec's
Vehicle paragraph words it ("speed factor (multiplies travel time)"). -/
def specVehicleTravelTime (v : Vehicle) (t : ℤ) : ℚ := v.speed_factor * (t : ℚ)

/-- The half-open default window `[0, 1440)` as the spec's Location
paragraph words it. -/
def specDefaultWindowOK (a : ℤ) : Prop := 0 ≤ a ∧ a < 1440

instance (a : ℤ) : Decidable (specDefaultWindowOK a) := by
  unfold specDefaultWindowOK; infer_instance

/-! Concrete problem instances (OSRM tables in seconds/meters). -/

/-- Two-location duration table: 600 seconds between distinct locations. -/
def exDur2 : List (List (Option ℚ)) :=
  [[some 0, some 600], [some 600, some 0]]

/-- Two-location distance table. -/
def exDist2 : List (List (Option ℚ)) :=
  [[some 0, some 1000], [some 1000, some 0]]

/-- Three-location duration table: 600 seconds between distinct locations. -/
def exDur3 : List (List (Option ℚ)) :=
  [[some 0, some 600, some 600],
   [some 600, some 0, some 600],
   [some 600, some 600, some 0]]

/-- Three-location distance table. -/
def exDist3 : List (List (Option ℚ)) :=
  [[some 0, some 1000, some 1000],
   [some 1000, some 0, some 1000],
   [some 1000, some 1000, some 0]]

/-- Depot plus one customer; both have zero service time. -/
def exStops2 : List Stop :=
  [{ name := "Depot", lat := 0, lon := 0, demand := 0, tw := none, service_min := 0 },
   { name := "Shop A", lat := 0, lon := 0, demand := 1, tw := none, service_min := 0 }]

/-- A round-trip vehicle with the dataclass defaults for end and limit. -/
def exVeh : Vehicle :=
  { name := "Van", capacity := 1, start_index := 0, end_index := none,
    max_route_min := some 480, speed_factor := 1 }

/-- Data model of the depot-plus-one-customer instance. -/
def exDM : DataModel := build_data_model exStops2 [exVeh] exDur2 exDist2

/-- The only complete assignment of that instance: depot, shop, depot. -/
def exSol : VSolution := { chains := [[0, 1, 0]], arrivals := [[0, 10, 20]] }

/-- The plan `get_routes` emits for `exSol`. -/
def exPlan : List (ℕ × ℤ) := [(0, 0), (1, 10), (0, 20)]

/-- C1 instance: the route runs from node 0 to a distinct end node 1
whose service time (5) differs from the start's (0). -/
def c1Stops : List Stop :=
  [{ name := "Depot", lat := 0, lon := 0, demand := 0, tw := none, service_min := 0 },
   { name := "Shop A", lat := 0, lon := 0, demand := 0, tw := none, service_min := 5 }]

/-- C1 vehicle: starts at node 0 and ends at node 1. -/
def c1Veh : Vehicle :=
  { name := "Van", capacity := 1, start_index := 0, end_index := some 1,
    max_route_min := some 480, speed_factor := 1 }

/-- C1 data model. -/
def c1DM : DataModel := build_data_model c1Stops [c1Veh] exDur2 exDist2

/-- C1 solution: the single possible chain. -/
def c1Sol : VSolution := { chains := [[0, 1]], arrivals := [[0, 10]] }

/-- C2 instance: the route's end node 2 carries demand 5, above the
vehicle capacity 3. -/
def c2Stops : List Stop :=
  [{ name := "Depot", lat := 0, lon := 0, demand := 0, tw := none, service_min := 0 },
   { name := "Shop A", lat := 0, lon := 0, demand := 2, tw := none, service_min := 0 },
   { name := "Shop B", lat := 0, lon := 0, demand := 5, tw := none, service_min := 0 }]

/-- C2 vehicle: capacity 3, start node 0, end node 2. -/
def c2Veh : Vehicle :=
  { name := "Van", capacity := 3, start_index := 0, end_index := some 2,
    max_route_min := some 480, speed_factor := 1 }

/-- C2 data model. -/
def c2DM : DataModel := build_data_model c2Stops [c2Veh] exDur3 exDist3

/-- C2 solution: the single complete chain 0 → 1 → 2. -/
def c2Sol : VSolution := { chains := [[0, 1, 2]], arrivals := [[0, 10, 20]] }

/-- The plan `get_routes` emits for `c2Sol`. -/
def c2Plan : List (ℕ × ℤ) := [(0, 0), (1, 10), (2, 20)]

/-- C4 vehicle: an explicit `max_route_min = 0`. -/
def c4Veh : Vehicle :=
  { name := "Van", capacity := 1, start_index := 0, end_index := none,
    max_route_min := some 0, speed_factor := 1 }

/-- C4 data model. -/
def c4DM : DataModel := build_data_model exStops2 [c4Veh] exDur2 exDist2

/-- C6 vehicles: identical except for the speed factor. -/
def c6VehA : Vehicle :=
  { name := "Van A", capacity := 1, start_index := 0, end_index := none,
    max_route_min := some 480, speed_factor := 1 }

/-- C6 vehicle with doubled speed factor. -/
def c6VehB : Vehicle :=
  { name := "Van B", capacity := 1, start_index := 0, end_index := none,
    max_route_min := some 480, speed_factor := 2 }

/-- C7 raw payload: an explicit capacity of 0 and all other fields absent. -/
def c7Raw : RawVehicle :=
  { name := none, capacity := .val 0, start_index := .absent,
    end_index := .absent, max_route_min := .absent, speed_factor := .absent }

/-- C8 vehicle: no duration limit, capacity 1. -/
def c8Veh : Vehicle :=
  { name := "Van", capacity := 1, start_index := 0, end_index := none,
    max_route_min := none, speed_factor := 1 }

/-- C8 duration table: all journeys take 0 seconds. -/
def c8Dur : List (List (Option ℚ)) :=
  [[some 0, some 0], [some 0, some 0]]

/-- C8 data model: both stops are windowless. -/
def c8DM : DataModel := build_data_model exStops2 [c8Veh] c8Dur c8Dur

/-- C8 solution family: the customer is served at minute `m`. -/
def c8SolAt (m : ℤ) : VSolution := { chains := [[0, 1, 0]], arrivals := [[0, m, m]] }

/-! Helper lemmas. -/

/-- Membership in `get_routes`: exactly the vehicles with a chain longer
than two elements, paired with their node/arrival zip. -/
lemma mem_get_routes {sol : VSolution} {p : ℕ × List (ℕ × ℤ)} :
    p ∈ get_routes sol ↔
      p.1 < sol.chains.length ∧ (sol.chains.getD p.1 []).length ≠ 2 ∧
      p.2 = (sol.chains.getD p.1 []).zip (sol.arrivals.getD p.1 []) := by
  obtain ⟨v, plan⟩ := p
  unfold get_routes
  simp only [List.mem_filterMap, List.mem_range]
  constructor
  · rintro ⟨w, hw, hfw⟩
    by_cases h2 : (sol.chains.getD w []).length = 2
    · rw [if_pos h2] at hfw
      exact absurd hfw (by simp)
    · rw [if_neg h2] at hfw
      have h3 := Option.some.inj hfw
      rw [Prod.mk.injEq] at h3
      obtain ⟨h4, h5⟩ := h3
      subst h4
      subst h5
      exact ⟨hw, h2, rfl⟩
  · rintro ⟨h1, h2, h3⟩
    refine ⟨v, h1, ?_⟩
    rw [if_neg h2, h3]

/-- `getD` on a zip of equally indexed lists. -/
lemma zip_getD {a : List ℕ} {b : List ℤ} {k : ℕ}
    (ha : k < a.length) (hb : k < b.length) :
    (a.zip b).getD k (0, 0) = (a.getD k 0, b.getD k 0) := by
  have hz : k < (a.zip b).length := by
    rw [List.length_zip]; exact lt_min ha hb
  rw [List.getD_eq_getElem?_getD, List.getElem?_eq_getElem hz,
      List.getD_eq_getElem?_getD, List.getElem?_eq_getElem ha,
      List.getD_eq_getElem?_getD, List.getElem?_eq_getElem hb]
  simp [List.getElem_zip]

/-- `headD` is `getD` at index zero. -/
lemma headD_eq_getD (l : List ℤ) (d : ℤ) : l.headD d = l.getD 0 d := by
  cases l <;> rfl

/-- `getLastD` is `getD` at the last index. -/
lemma getLastD_eq_getD : ∀ (l : List ℤ) (d : ℤ), l.getLastD d = l.getD (l.length - 1) d
  | [], _ => rfl
  | [_], _ => rfl
  | a :: b :: t, d => by
    have ih := getLastD_eq_getD (b :: t) d
    rw [List.getLastD_eq_getLast?, List.getLast?_cons_cons, ← List.getLastD_eq_getLast?, ih]
    simp [List.getD_cons_succ]

/-- Each chain's arc-cost total splits into travel time plus the service
times of every node except the last one visited. -/
lemma arcCosts_eq (dm : DataModel) : ∀ chain : List ℕ,
    arcCosts dm chain
      = routeDurSum dm chain
        + (chain.dropLast.map (fun i => dm.service_min.getD i 0)).sum
  | [] => by simp [arcCosts, routeDurSum]
  | [_] => by simp [arcCosts, routeDurSum]
  | a :: b :: rest => by
    have ih := arcCosts_eq dm (b :: rest)
    simp only [arcCosts, routeDurSum, time_callback, List.dropLast_cons₂,
      List.map_cons, List.sum_cons, ih]
    ring

/-! Claim theorems. -/

/-- Claim C1, counterexample: a feasible returned solution of a concrete
instance (route from node 0, service 0, to node 1, service 5) whose
solver objective (source-node service convention, `time_callback`)
differs from the spec's destination-node-service formula. -/
theorem c1_counterexample :
    Feasible c1DM c1Sol ∧ objectiveValue c1DM c1Sol ≠ objectiveDest c1DM c1Sol := by
  decide

/-- Claim C1 as amended: the objective is the sum of arc costs where the
cost of arc `(i, j)` is the travel time from `i` to `j` plus the service
time of the SOURCE node `i`; equivalently, each route contributes its
total travel time plus the service times of every visited node except
the last. -/
theorem c1_amended_objective (dm : DataModel) (sol : VSolution) :
    objectiveValue dm sol
      = (sol.chains.map (fun c =>
          routeDurSum dm c
            + (c.dropLast.map (fun i => dm.service_min.getD i 0)).sum)).sum := by
  unfold objectiveValue
  exact congrArg List.sum (List.map_congr_left (fun c _ => arcCosts_eq dm c))

/-- Claim C2, counterexample: a feasible returned solution whose route
ends at a node of demand 5 with vehicle capacity 3; the full-route
prefix has cumulative demand 7 > 3, because the capacity dimension never
adds the demand of the node a route ends on. -/
theorem c2_counterexample :
    Feasible c2DM c2Sol ∧
    get_routes c2Sol = [(0, c2Plan)] ∧
    ¬ (((c2Plan.take 3).map (fun q => demand_callback c2DM q.1)).sum
        ≤ c2DM.vehicle_capacities.getD 0 0) := by
  decide

/-- Claim C2 as amended: for every returned route and every prefix that
excludes the route's final node, the cumulative demand of the prefix is
at most the vehicle's capacity. -/
theorem c2_amended_prefix_capacity (dm : DataModel) (sol : VSolution)
    (hf : Feasible dm sol) :
    ∀ p ∈ get_routes sol, ∀ k, k < p.2.length →
      ((p.2.take k).map (fun q => demand_callback dm q.1)).sum
        ≤ dm.vehicle_capacities.getD p.1 0 := by
  intro p hp k hk
  rw [mem_get_routes] at hp
  obtain ⟨hv, hne, hplan⟩ := hp
  obtain ⟨h1, h2, hall, hcomp⟩ := hf
  obtain ⟨hchain, hcap, htime, hdur⟩ := hall p.1 hv
  have hlen : (sol.arrivals.getD p.1 []).length = (sol.chains.getD p.1 []).length :=
    htime.1
  rw [hplan] at hk ⊢
  have hkc : k < (sol.chains.getD p.1 []).length := by
    rw [List.length_zip, hlen, min_self] at hk
    exact hk
  have hmap : ((sol.chains.getD p.1 []).zip (sol.arrivals.getD p.1 [])).map
        (fun q => demand_callback dm q.1)
      = (sol.chains.getD p.1 []).map (demand_callback dm) := by
    rw [show (fun q : ℕ × ℤ => demand_callback dm q.1)
          = (demand_callback dm) ∘ Prod.fst from rfl,
        ← List.map_map, List.map_fst_zip _ _ (le_of_eq hlen.symm)]
  rw [List.map_take, hmap, ← List.map_take]
  exact (hcap k hkc).2

/-- Claim C3 (confirmed): along every returned route each recorded
arrival lies within the node's effective time window, and each arrival
is at least the previous arrival plus the previous node's service time
plus the travel time between the two nodes. -/
theorem c3_time_window_invariant (dm : DataModel) (sol : VSolution)
    (hf : Feasible dm sol) :
    ∀ p ∈ get_routes sol, ∀ k, k < p.2.length →
      ((nodeWindow dm (p.2.getD k (0, 0)).1).1 ≤ (p.2.getD k (0, 0)).2 ∧
       (p.2.getD k (0, 0)).2 ≤ (nodeWindow dm (p.2.getD k (0, 0)).1).2) ∧
      (k + 1 < p.2.length →
        (p.2.getD k (0, 0)).2 + dm.service_min.getD (p.2.getD k (0, 0)).1 0
          + durAt dm.duration_matrix_min (p.2.getD k (0, 0)).1
              (p.2.getD (k + 1) (0, 0)).1
          ≤ (p.2.getD (k + 1) (0, 0)).2) := by
  intro p hp k hk
  rw [mem_get_routes] at hp
  obtain ⟨hv, hne, hplan⟩ := hp
  obtain ⟨h1, h2, hall, hcomp⟩ := hf
  obtain ⟨hchain, hcap, htime, hdur⟩ := hall p.1 hv
  obtain ⟨hlen, hwin, htrans⟩ := htime
  rw [hplan] at hk ⊢
  rw [List.length_zip, hlen, min_self] at hk
  rw [zip_getD hk (hlen ▸ hk)]
  constructor
  · have hw := hwin k hk
    exact ⟨le_trans (le_max_left _ _) hw.1, le_trans hw.2 (min_le_left _ _)⟩
  · intro hk1
    rw [List.length_zip, hlen, min_self] at hk1
    rw [zip_getD hk1 (hlen ▸ hk1)]
    dsimp only
    have ht := (htrans k (by omega)).1
    unfold time_callback at ht
    omega

/-- Claim C4, counterexample: the vehicle declares `max_route_min = 0`,
yet the returned route's end arrival exceeds its start arrival by 20
minutes, because `build_data_model` replaces the falsy limit 0 with the
full horizon. -/
theorem c4_counterexample :
    Feasible c4DM exSol ∧
    c4Veh.max_route_min = some 0 ∧
    get_routes exSol = [(0, exPlan)] ∧
    ¬ ((exPlan.map Prod.snd).getLastD 0 - (exPlan.map Prod.snd).headD 0
        ≤ (0 : ℤ)) := by
  decide

/-- Claim C4 as amended: for every returned route, the end arrival minus
the start arrival is at most the vehicle's EFFECTIVE maximum route
duration, i.e. `max_route_min` with `None` and `0` replaced by the
1440-minute horizon (`vehicle_max_route_min` in the data model). -/
theorem c4_amended_duration (dm : DataModel) (sol : VSolution)
    (hf : Feasible dm sol) :
    ∀ p ∈ get_routes sol,
      (p.2.map Prod.snd).getLastD 0 - (p.2.map Prod.snd).headD 0
        ≤ dm.vehicle_max_route_min.getD p.1 0 := by
  intro p hp
  rw [mem_get_routes] at hp
  obtain ⟨hv, hne, hplan⟩ := hp
  obtain ⟨h1, h2, hall, hcomp⟩ := hf
  obtain ⟨hchain, hcap, htime, hdur⟩ := hall p.1 hv
  rw [hplan, List.map_snd_zip _ _ (le_of_eq htime.1)]
  unfold DurationOK at hdur
  omega

/-- Claim C5 (confirmed): `get_routes` omits exactly the vehicles whose
start is immediately followed by their end, and every returned plan
starts at the vehicle's start node, ends at its end node, and contains
at least one intermediate stop. -/
theorem c5_route_extraction (dm : DataModel) (sol : VSolution)
    (hf : Feasible dm sol) :
    (∀ v, v < sol.chains.length →
      (v ∈ (get_routes sol).map Prod.fst ↔ (sol.chains.getD v []).length ≠ 2)) ∧
    (∀ p ∈ get_routes sol,
      (p.2.map Prod.fst).head? = some (dm.vehicle_starts.getD p.1 0) ∧
      (p.2.map Prod.fst).getLast? = some (dm.vehicle_ends.getD p.1 0) ∧
      3 ≤ p.2.length) := by
  obtain ⟨h1, h2, hall, hcomp⟩ := hf
  constructor
  · intro v hv
    constructor
    · intro hmem
      rw [List.mem_map] at hmem
      obtain ⟨p, hp, hfst⟩ := hmem
      rw [mem_get_routes] at hp
      exact hfst ▸ hp.2.1
    · intro hne
      rw [List.mem_map]
      exact ⟨(v, (sol.chains.getD v []).zip (sol.arrivals.getD v [])),
        mem_get_routes.mpr ⟨hv, hne, rfl⟩, rfl⟩
  · intro p hp
    rw [mem_get_routes] at hp
    obtain ⟨hv, hne, hplan⟩ := hp
    obtain ⟨hchain, hcap, htime, hdur⟩ := hall p.1 hv
    have hfst : p.2.map Prod.fst = sol.chains.getD p.1 [] := by
      rw [hplan, List.map_fst_zip _ _ (le_of_eq htime.1.symm)]
    refine ⟨hfst ▸ hchain.2.1, hfst ▸ hchain.2.2, ?_⟩
    have hlen2 : p.2.length = (sol.chains.getD p.1 []).length := by
      rw [hplan, List.length_zip, htime.1, min_self]
    have h2le := hchain.1
    omega

/-- Claim C6: the solver's travel times ignore `speed_factor` entirely.
Two problems identical except for the speed factor (1 vs 2) yield the
same arc transit of 10 minutes, while the spec's scaled travel time for
the factor-2 vehicle would be 20. -/
theorem c6_speed_factor_unused :
    time_callback (build_data_model exStops2 [c6VehB] exDur2 exDist2) 0 1
      = time_callback (build_data_model exStops2 [c6VehA] exDur2 exDist2) 0 1 ∧
    time_callback (build_data_model exStops2 [c6VehB] exDur2 exDist2) 0 1 = 10 ∧
    specVehicleTravelTime c6VehB
      (durAt (build_data_model exStops2 [c6VehB] exDur2 exDist2).duration_matrix_min
        0 1) = 20 ∧
    (10 : ℚ) ≠ 20 := by
  have h : durAt (build_data_model exStops2 [c6VehB] exDur2 exDist2).duration_matrix_min
      0 1 = 10 := by decide
  refine ⟨by decide, by decide, ?_, by norm_num⟩
  rw [h]
  norm_num [specVehicleTravelTime, c6VehB]

/-- Claim C7, counterexample: a vehicle payload with explicit capacity 0
parses successfully — no configuration error is reported — and the
capacity is silently clamped to 1. -/
theorem c7_counterexample :
    _parse_vehicle c7Raw 0 5
      = .ok { name := "Vehicle 1", capacity := 1, start_index := 0,
              end_index := none, max_route_min := none, speed_factor := 1 } ∧
    c7Raw.capacity = Field.val 0 :=
  ⟨rfl, rfl⟩

/-- Claim C7 as amended: a vehicle with non-positive capacity is not
rejected; whenever the remaining fields parse, `_parse_vehicle` succeeds
and the vehicle's capacity is clamped to 1. -/
theorem c7_amended_clamp (raw : RawVehicle) (idx : ℕ) (dflt : ℤ) (c : ℤ)
    (hc : raw.capacity = Field.val c) (hle : c ≤ 0)
    (hs : raw.start_index ≠ Field.bad) (he : raw.end_index ≠ Field.bad)
    (hm : raw.max_route_min ≠ Field.bad) (hsf : raw.speed_factor ≠ Field.bad) :
    ∃ v : Vehicle, _parse_vehicle raw idx dflt = .ok v ∧ v.capacity = 1 := by
  obtain ⟨n, cap, si, ei, mr, sf⟩ := raw
  simp only at hc hs he hm hsf
  subst hc
  cases si <;> cases ei <;> cases mr <;> cases sf <;>
    first
      | exact absurd rfl hs
      | exact absurd rfl he
      | exact absurd rfl hm
      | exact absurd rfl hsf
      | exact ⟨_, rfl, max_eq_right (by omega)⟩

/-- Claim C8, counterexample: both stops are windowless, yet arrival at
exactly minute 1440 is feasible — the default window registered by the
model is the CLOSED interval `[0, 1440]` (`SetRange(0, 24*60)`), not the
half-open `[0, 1440)` the claim asserts. -/
theorem c8_counterexample :
    Feasible c8DM (c8SolAt 1440) ∧
    (exStops2.getD 1 { name := "", lat := 0, lon := 0 }).tw = none ∧
    ((c8SolAt 1440).arrivals.getD 0 []).getD 1 0 = 1440 ∧
    ¬ specDefaultWindowOK (((c8SolAt 1440).arrivals.getD 0 []).getD 1 0) := by
  decide

/-- Claim C8 as amended: a stop with no declared window receives the
closed default window `(0, 1440)`, and every arrival minute `m` with
`0 ≤ m ≤ 1440` — including 1440 itself — is feasible at such a stop. -/
theorem c8_amended_window (m : ℤ) (h0 : 0 ≤ m) (h1 : m ≤ 1440) :
    (∀ s : Stop, s.tw = none → stopTw s = (0, 1440)) ∧
    Feasible c8DM (c8SolAt m) := by
  constructor
  · intro s hs
    unfold stopTw
    rw [hs]
    rfl
  · refine ⟨rfl, rfl, ?_, show CompleteOK c8DM [[0, 1, 0]] by decide⟩
    intro v hv
    have hv0 : v = 0 := by
      have : v < 1 := hv
      omega
    subst hv0
    refine ⟨show ChainOK c8DM 0 [0, 1, 0] by decide,
      show CapacityOK c8DM 0 [0, 1, 0] by decide, ?_, ?_⟩
    · show TimeOK c8DM [0, 1, 0] [0, m, m]
      have hnw0 : nodeWindow c8DM 0 = (0, 1440) := by decide
      have hnw1 : nodeWindow c8DM 1 = (0, 1440) := by decide
      have htc01 : time_callback c8DM 0 1 = 0 := by decide
      have htc10 : time_callback c8DM 1 0 = 0 := by decide
      have hhor : horizon = 1440 := rfl
      refine ⟨rfl, ?_, ?_⟩
      · intro k hk
        have hk3 : k < 3 := hk
        interval_cases k
        · simp only [List.getD_cons_zero]
          rw [hnw0]
          constructor <;> simp [hhor]
        · simp only [List.getD_cons_succ, List.getD_cons_zero]
          rw [hnw1]
          constructor <;> simp [hhor] <;> omega
        · simp only [List.getD_cons_succ, List.getD_cons_zero]
          rw [hnw0]
          constructor <;> simp [hhor] <;> omega
      · intro k hk
        have hk2 : k < 2 := hk
        interval_cases k
        · simp only [List.getD_cons_succ, List.getD_cons_zero]
          rw [htc01]
          constructor <;> omega
        · simp only [List.getD_cons_succ, List.getD_cons_zero]
          rw [htc10]
          constructor <;> omega
    · show DurationOK c8DM 0 [0, m, m]
      have hlim : c8DM.vehicle_max_route_min.getD 0 0 = 1440 := by decide
      unfold DurationOK
      rw [hlim]
      have e1 : ([0, m, m] : List ℤ).getLastD 0 = m := rfl
      have e2 : ([0, m, m] : List ℤ).headD 0 = 0 := rfl
      rw [e1, e2]
      omega

/-- Claim C9 (confirmed): a missing (`None`) entry of the provider's
duration matrix enters the data model as 0 travel minutes. -/
theorem c9_missing_duration_zero (stops : List Stop) (vehicles : List Vehicle)
    (durTable distTable : List (List (Option ℚ))) (i j : ℕ)
    (hi : i < durTable.length) (hj : j < (durTable.getD i []).length)
    (hnone : (durTable.getD i []).getD j none = none) :
    durAt (build_data_model stops vehicles durTable distTable).duration_matrix_min i j
      = 0 := by
  have hrow : durTable.getD i [] = durTable[i] := by
    rw [List.getD_eq_getElem?_getD, List.getElem?_eq_getElem hi, Option.getD_some]
  rw [hrow] at hj hnone
  unfold durAt build_data_model durationsMin
  have hi' : i < (durTable.map (fun row => row.map minutesFromSeconds)).length := by
    rw [List.length_map]; exact hi
  have houter : (durTable.map (fun row => row.map minutesFromSeconds)).getD i []
      = durTable[i].map minutesFromSeconds := by
    rw [List.getD_eq_getElem?_getD, List.getElem?_eq_getElem hi', Option.getD_some,
      List.getElem_map]
  rw [houter]
  have hj' : j < (durTable[i].map minutesFromSeconds).length := by
    rw [List.length_map]; exact hj
  have hnone' : durTable[i][j] = none := by
    rw [List.getD_eq_getElem?_getD, List.getElem?_eq_getElem hj, Option.getD_some] at hnone
    exact hnone
  rw [List.getD_eq_getElem?_getD, List.getElem?_eq_getElem hj', Option.getD_some,
    List.getElem_map, hnone']
  decide

/-- Claim C10 (confirmed): a vehicle whose `max_route_min` is 0 or
`None` receives the full-horizon limit 1440, and a 1440 limit never
constrains a route: it is implied by the time dimension's own bounds. -/
theorem c10_zero_limit_full_horizon (v : Vehicle)
    (hv : v.max_route_min = some 0 ∨ v.max_route_min = none)
    (dm : DataModel) (chain : List ℕ) (arr : List ℤ) (w : ℕ)
    (ht : TimeOK dm chain arr)
    (hlim : dm.vehicle_max_route_min.getD w 0 = 1440) :
    vehicleMaxRouteMin v = 1440 ∧ DurationOK dm w arr := by
  constructor
  · rcases hv with h | h <;> simp [vehicleMaxRouteMin, h]
  · unfold DurationOK
    rw [hlim]
    obtain ⟨hlen, hwin, htrans⟩ := ht
    rcases harr : arr with _ | ⟨a, rest⟩
    · simp
    · rw [← harr]
      have hlpos : 0 < arr.length := by rw [harr]; simp
      have h0 : 0 < chain.length := by omega
      have hlast : arr.length - 1 < chain.length := by omega
      have hhead := hwin 0 h0
      have hlastw := hwin (arr.length - 1) hlast
      have hhor : horizon = 1440 := rfl
      have b1 : 0 ≤ arr.getD 0 0 := le_trans (le_max_right _ 0) hhead.1
      have b2 : arr.getD (arr.length - 1) 0 ≤ 1440 := by
        have := le_trans hlastw.2 (min_le_right _ horizon)
        omega
      rw [headD_eq_getD, getLastD_eq_getD]
      omega

/-! Witnesses: each applies its claim's theorem at a concrete input. -/

/-- Witness for C2's amended theorem at the depot-plus-one-stop instance. -/
theorem c2_amended_witness :
    ((exPlan.take 2).map (fun q => demand_callback exDM q.1)).sum
      ≤ exDM.vehicle_capacities.getD 0 0 :=
  c2_amended_prefix_capacity exDM exSol (by decide) (0, exPlan) (by decide) 2 (by decide)

/-- Witness for C3's theorem at the depot-plus-one-stop instance. -/
theorem c3_witness :
    ((nodeWindow exDM (exPlan.getD 1 (0, 0)).1).1 ≤ (exPlan.getD 1 (0, 0)).2 ∧
     (exPlan.getD 1 (0, 0)).2 ≤ (nodeWindow exDM (exPlan.getD 1 (0, 0)).1).2) ∧
    (1 + 1 < exPlan.length →
      (exPlan.getD 1 (0, 0)).2 + exDM.service_min.getD (exPlan.getD 1 (0, 0)).1 0
        + durAt exDM.duration_matrix_min (exPlan.getD 1 (0, 0)).1
            (exPlan.getD 2 (0, 0)).1
        ≤ (exPlan.getD 2 (0, 0)).2) :=
  c3_time_window_invariant exDM exSol (by decide) (0, exPlan) (by decide) 1 (by decide)

/-- Witness for C4's amended theorem at the zero-limit instance. -/
theorem c4_amended_witness :
    (exPlan.map Prod.snd).getLastD 0 - (exPlan.map Prod.snd).headD 0
      ≤ c4DM.vehicle_max_route_min.getD 0 0 :=
  c4_amended_duration c4DM exSol (by decide) (0, exPlan) (by decide)

/-- Witness for C5's theorem at the depot-plus-one-stop instance. -/
theorem c5_witness :
    ((0 : ℕ) ∈ (get_routes exSol).map Prod.fst ↔
      (exSol.chains.getD 0 []).length ≠ 2) ∧
    ((exPlan.map Prod.fst).head? = some (exDM.vehicle_starts.getD 0 0) ∧
     (exPlan.map Prod.fst).getLast? = some (exDM.vehicle_ends.getD 0 0) ∧
     3 ≤ exPlan.length) :=
  ⟨(c5_route_extraction exDM exSol (by decide)).1 0 (by decide),
   (c5_route_extraction exDM exSol (by decide)).2 (0, exPlan) (by decide)⟩

/-- Witness for C7's amended theorem at the capacity-zero payload. -/
theorem c7_amended_witness :
    ∃ v : Vehicle, _parse_vehicle c7Raw 0 5 = .ok v ∧ v.capacity = 1 :=
  c7_amended_clamp c7Raw 0 5 0 rfl (by norm_num) (by decide) (by decide)
    (by decide) (by decide)

/-- Witness for C8's amended theorem at minute 1440 itself. -/
theorem c8_amended_witness :
    (∀ s : Stop, s.tw = none → stopTw s = (0, 1440)) ∧
    Feasible c8DM (c8SolAt 1440) :=
  c8_amended_window 1440 (by norm_num) (by norm_num)

/-- Witness for C9's theorem on a one-entry matrix whose entry is `None`. -/
theorem c9_witness :
    durAt (build_data_model [] [] [[none]] []).duration_matrix_min 0 0 = 0 :=
  c9_missing_duration_zero [] [] [[none]] [] 0 0 (by decide) (by decide) (by decide)

/-- Witness for C10's theorem at the zero-limit instance. -/
theorem c10_witness :
    vehicleMaxRouteMin c4Veh = 1440 ∧ DurationOK c4DM 0 [0, 10, 20] :=
  c10_zero_limit_full_horizon c4Veh (Or.inl rfl) c4DM [0, 1, 0] [0, 10, 20] 0
    (by decide) (by decide)

end DamasMaps
